import Mathlib

/-!
# Verification of the reelchemy narrative-assembly and player logic

Shallow embedding of the specifiable core of the repository:

* `src/types.ts` — the data model (`LocationPoint`, `MediaItem`, `StoryBeat`,
  `RecallStory`, `AppState`);
* `src/services/geminiService.ts` — the response-processing tail of the two
  copies of `analyzeTripAndGenerateStory` (location resolution, title
  fallback, beat construction) and the request-side media-part construction;
* `src/App.tsx` — the `handleGenerate` pipeline (sequential per-beat speech
  synthesis with abort-on-failure) and the `processFiles` import handler;
* `src/components/ScrollyStory.tsx` — the scroll-synchronized player
  (`playBeatAudio`, `handleScroll`, mount/unmount effects).

External collaborator calls (story generation, speech synthesis, audio
decoding) are modelled as explicit inputs: the parsed response structure or a
per-call outcome oracle.  JavaScript numbers occurring in scroll arithmetic
are modelled as rationals; audio buffers are handles whose contents the code
never inspects, modelled as `Nat` tokens.
-/

namespace Reelchemy

/-- `LocationPoint` from `src/types.ts`.  The claims never inspect the
coordinate values, so the JS float coordinates are carried as integers. -/
structure LocationPoint where
  name : String
  lat : Int
  lng : Int
  deriving Repr, DecidableEq

/-- `MediaItem` from `src/types.ts` (optional fields as `Option`). -/
structure MediaItem where
  id : String
  url : String
  mimeType : String
  description : Option String := none
  timestamp : String
  base64 : Option String := none
  source : Option String := none
  deriving Repr, DecidableEq

/-- Decoded audio clip handle (`AudioBuffer` in the browser).  The code never
inspects its contents, only stores and plays it, so a `Nat` token suffices. -/
abbrev AudioClip := Nat

/-- `StoryBeat` from `src/types.ts`; `audioBuffer : AudioBuffer | null`
becomes an `Option`. -/
structure StoryBeat where
  index : Nat
  text : String
  associatedMediaId : Option String := none
  location : Option LocationPoint := none
  audioBuffer : Option AudioClip := none
  deriving Repr, DecidableEq

/-- `RecallStory` from `src/types.ts`. -/
structure RecallStory where
  title : String
  beats : List StoryBeat
  deriving Repr, DecidableEq

/-- `AppState` enum from `src/types.ts`. -/
inductive AppState where
  | IMPORTING
  | ROUTE_CONFIRMED
  | DESIGNING
  | ANALYZING
  | PREMIERE
  | PLAYBACK
  | GENERATING_ASSET
  deriving Repr, DecidableEq

/-! ## Collaborator response model

`analyzeTripAndGenerateStory` parses `response.text` with
`JSON.parse(response.text || "{}")` against a schema whose items carry
`index`, `text`, `locationName` (required) and `mediaId` (optional).  A
parsed raw beat and the parsed top-level object are modelled directly; a
missing `beats` or `title` field is `none`.  Beat indices are the schema's
non-negative integers (the data model calls them ordinals starting at 0). -/

structure RawBeat where
  index : Nat
  text : String
  locationName : String
  mediaId : Option String := none
  deriving Repr, DecidableEq

structure GenResponse where
  title : Option String
  beats : Option (List RawBeat)
  deriving Repr, DecidableEq

/-- JavaScript `a || b` on a possibly-missing string: `undefined` and the
empty string are falsy, so both fall back. -/
def jsOrString (v : Option String) (fallback : String) : String :=
  match v with
  | some s => if s = "" then fallback else s
  | none => fallback

/-- JavaScript truthiness of a possibly-missing string field. -/
def jsTruthy (o : Option String) : Bool :=
  match o with
  | some s => s ≠ ""
  | none => false

/-- `toLowerCase()` character-wise (the names in play are ASCII). -/
def lowerChars (s : String) : List Char := s.data.map Char.toLower

/-- `l.name.toLowerCase().includes(b.locationName.toLowerCase())` from
`geminiService.ts` line 196/424: case-insensitive substring containment of
the raw beat's location name in the itinerary point's name. -/
def locationNameMatches (b : RawBeat) (l : LocationPoint) : Bool :=
  decide (lowerChars b.locationName <:+: lowerChars l.name)

/-- Location resolution from `geminiService.ts` lines 196 and 424:
`itinerary.find(l => l.name.toLowerCase().includes(b.locationName.toLowerCase()))
 || itinerary[b.index % (itinerary.length || 1)]`.
An out-of-range JS subscript yields `undefined`, i.e. `none`. -/
def resolveLocation (itinerary : List LocationPoint) (b : RawBeat) :
    Option LocationPoint :=
  match itinerary.find? (fun l => locationNameMatches b l) with
  | some l => some l
  | none =>
      itinerary.get? (b.index % (if itinerary.length = 0 then 1 else itinerary.length))

/-- The object built for each raw beat in the `beatsWithAudio` map of both
copies of `analyzeTripAndGenerateStory` (`audioBuffer: null` at this stage). -/
def rawToBeat (itinerary : List LocationPoint) (b : RawBeat) : StoryBeat :=
  { index := b.index
  , text := b.text
  , associatedMediaId := b.mediaId
  , location := resolveLocation itinerary b
  , audioBuffer := none }

/-- Response-processing tail of the FIRST copy of
`analyzeTripAndGenerateStory` (`geminiService.ts` lines 192-211): a missing
`beats` field is tolerated via `(rawJson.beats || [])`, the title falls back
to the input title when the returned one is missing or empty.  The
`Promise.all` over an async mapper is semantically a plain map. -/
def assembleStory1 (title : String) (itinerary : List LocationPoint)
    (r : GenResponse) : RecallStory :=
  { title := jsOrString r.title title
  , beats := (r.beats.getD []).map (rawToBeat itinerary) }

/-- Response-processing tail of the SECOND copy of
`analyzeTripAndGenerateStory` (`geminiService.ts` lines 420-439):
`rawJson.beats.map(...)` throws a `TypeError` when the response lacks the
`beats` field, modelled as `none`. -/
def assembleStory2 (title : String) (itinerary : List LocationPoint)
    (r : GenResponse) : Option RecallStory :=
  match r.beats with
  | none => none
  | some bs =>
      some { title := jsOrString r.title title
           , beats := bs.map (rawToBeat itinerary) }

/-- The exact beat count embedded in the first copy's prompt
(`geminiService.ts` line 157): `Math.max(4, Math.min(media.length, 10))`. -/
def requestedBeatCount (media : List MediaItem) : Nat :=
  max 4 (min media.length 10)

/-! ## Request-side media parts (both copies) -/

/-- One part of the multimodal request: inline data or a text reference. -/
inductive PromptPart where
  | inlineData (data : String) (mimeType : String)
  | text (s : String)
  deriving Repr, DecidableEq

/-- `startsWith` character-wise. -/
def strStartsWith (s pre : String) : Bool := pre.data.isPrefixOf s.data

/-- The characters of `b.split(',')[1]`: the segment between the first and
the second comma, `none` when the string has no comma. -/
def afterFirstComma : List Char → Option (List Char)
  | [] => none
  | c :: rest =>
    if c = ',' then some (rest.takeWhile (fun d => d ≠ ','))
    else afterFirstComma rest

/-- `m.base64.split(',')[1] || m.base64`: the segment after the first comma,
falling back to the whole string when there is no such segment or it is
empty (both `undefined` and `""` are falsy). -/
def base64Payload (b : String) : String :=
  match afterFirstComma b.data with
  | some seg => if seg = [] then b else String.mk seg
  | none => b

/-- JS string interpolation of a possibly-undefined value. -/
def jsShowOpt (o : Option String) : String := o.getD "undefined"

/-- Media-part construction of the first copy (`geminiService.ts` lines
124-136): inline data only for items with a truthy `base64` AND an image
MIME type; otherwise a text reference naming the url and source. -/
def mediaPart1 (m : MediaItem) : PromptPart :=
  if jsTruthy m.base64 && strStartsWith m.mimeType "image" then
    PromptPart.inlineData (base64Payload (m.base64.getD "")) m.mimeType
  else
    PromptPart.text ("[Fragment: " ++ m.url ++ " - " ++ jsShowOpt m.source ++ " source]")

/-- `media.slice(0, 15).map(...)` of the first copy. -/
def mediaParts1 (media : List MediaItem) : List PromptPart :=
  (media.take 15).map mediaPart1

/-- Media-part construction of the second copy (`geminiService.ts` lines
351-361): inline data for ANY item with a truthy `base64`, regardless of
MIME type; the text reference omits the source. -/
def mediaPart2 (m : MediaItem) : PromptPart :=
  if jsTruthy m.base64 then
    PromptPart.inlineData (base64Payload (m.base64.getD "")) m.mimeType
  else
    PromptPart.text ("[Fragment: " ++ m.url ++ "]")

/-- `media.slice(0, 15).map(...)` of the second copy. -/
def mediaParts2 (media : List MediaItem) : List PromptPart :=
  (media.take 15).map mediaPart2

/-! ## Host pipeline: `handleGenerate` (`src/App.tsx` lines 764-802)

The projection of the host's React state that `handleGenerate` touches:
`appState` and `story`.  The story-generation call and the per-beat speech
synthesis + decode are collaborator calls, modelled as explicit outcomes:
`analyze` for `analyzeTripAndGenerateStory` and `synth i` for the combined
`generateBeatAudio` / `decodeAudioData` result of the i-th loop iteration. -/

structure HostState where
  appState : AppState
  story : Option RecallStory
  deriving Repr, DecidableEq

/-- The `for` loop over `generatedStory.beats`: beat i's audio is requested
and decoded, then attached; the loop runs strictly sequentially and raising
at any step aborts the rest.  Returns the list of loop indices on which the
synthesis collaborator was invoked, together with the outcome. -/
def masterBeats (synth : Nat → Except Unit AudioClip) :
    Nat → List StoryBeat → List Nat × Except Unit (List StoryBeat)
  | _, [] => ([], Except.ok [])
  | i, b :: rest =>
    match synth i with
    | Except.error e => ([i], Except.error e)
    | Except.ok a =>
      let r := masterBeats synth (i + 1) rest
      (i :: r.1, r.2.map (fun rs => { b with audioBuffer := some a } :: rs))

/-- `handleGenerate` from `src/App.tsx` lines 764-802: sets `ANALYZING`,
awaits the story, masters each beat sequentially, then stores the story and
shows the premiere; any raised failure is caught and sends the app back to
`IMPORTING` without calling `setStory`. -/
def handleGenerate (analyze : Except Unit RecallStory)
    (synth : Nat → Except Unit AudioClip) (s : HostState) : HostState :=
  match analyze with
  | Except.error _ => { s with appState := AppState.IMPORTING }
  | Except.ok st =>
    match (masterBeats synth 0 st.beats).2 with
    | Except.error _ => { s with appState := AppState.IMPORTING }
    | Except.ok bs =>
        { appState := AppState.PREMIERE
        , story := some { st with beats := bs } }

/-! ## Local file import: `processFiles` (`src/App.tsx` lines 738-761)

`processFiles` sets `isProcessing` to `true`, then registers one
`FileReader` per file; each reader's `onloadend` callback pushes a media
item and increments `processedCount`, and the callback that makes
`processedCount === files.length` appends the batch and clears
`isProcessing`.  Every registered reader eventually fires `onloadend`
(`loadend` fires on success and on error), so the terminal state is the one
after `files.length` callbacks.  Only the fields the handler touches are
modelled; the per-item payloads are summarised by counts. -/

structure ImportState where
  isProcessing : Bool
  mediaCount : Nat
  newMediaCount : Nat
  processedCount : Nat
  deriving Repr, DecidableEq

/-- Entry of `processFiles`: `setIsProcessing(true)` and the fresh locals
`newMedia = []`, `processedCount = 0`. -/
def processFilesStart (s : ImportState) : ImportState :=
  { s with isProcessing := true, newMediaCount := 0, processedCount := 0 }

/-- One `reader.onloadend` callback for a batch of `total` files. -/
def readerOnLoadEnd (total : Nat) (s : ImportState) : ImportState :=
  let s1 := { s with newMediaCount := s.newMediaCount + 1
                   , processedCount := s.processedCount + 1 }
  if s1.processedCount = total then
    { s1 with mediaCount := s1.mediaCount + s1.newMediaCount
            , isProcessing := false }
  else s1

/-- Run `n` of the batch's reader callbacks in order. -/
def runCallbacks (total : Nat) : Nat → ImportState → ImportState
  | 0, s => s
  | n + 1, s => runCallbacks total n (readerOnLoadEnd total s)

/-- `processFiles` on a selected-file list of the given size, observed after
all of its reader callbacks (exactly one per file) have fired. -/
def processFiles (fileCount : Nat) (s : ImportState) : ImportState :=
  runCallbacks fileCount fileCount (processFilesStart s)

/-! ## Scroll-synchronized player (`src/components/ScrollyStory.tsx`)

State of the `ScrollyStory` component plus the audio objects it manages:

* `muted`, `activeBeatIndex`, `scrollProgress` — the three `useState` hooks;
* `ctxOpen` — whether `audioContextRef.current` holds an open context;
* `current` — `currentSourceRef.current`, the last started source's id;
* `live` — ids of sources that are started and not yet stopped or finished
  (the clips in the "sounding" state);
* `started` — trace of every source id ever started (`source.start()`);
* `nextId` — fresh-id counter for `createBufferSource()`.

Scroll metrics are the browser-reported values read in `handleScroll`;
JavaScript numbers become rationals. -/

structure PlayerState where
  muted : Bool
  activeBeatIndex : Nat
  scrollProgress : ℚ
  ctxOpen : Bool
  current : Option Nat
  live : List Nat
  started : List Nat
  nextId : Nat
  deriving Repr, DecidableEq

structure ScrollMetrics where
  scrollTop : ℚ
  scrollHeight : ℚ
  clientHeight : ℚ
  windowHeight : ℚ
  deriving Repr, DecidableEq

/-- `Math.round`: round half toward positive infinity. -/
def jsRound (x : ℚ) : Int := ⌊x + 1 / 2⌋

/-- `Math.round(scrollTop / windowHeight)` from `handleScroll` line 55. -/
def candidateIndex (m : ScrollMetrics) : Int :=
  jsRound (m.scrollTop / m.windowHeight)

/-- Initial component state: `useState(false)`, `useState(0)`, `useState(0)`,
refs `null`, no sources created yet. -/
def initPlayer : PlayerState :=
  { muted := false, activeBeatIndex := 0, scrollProgress := 0
  , ctxOpen := false, current := none, live := [], started := [], nextId := 0 }

/-- The mount effect (`ScrollyStory.tsx` lines 25-31): construct the
`AudioContext`.  Nothing else happens on mount. -/
def mountPlayer (s : PlayerState) : PlayerState :=
  { s with ctxOpen := true }

/-- The unmount cleanup: `audioContextRef.current?.close()`.  Closing the
output context silences any still-sounding source. -/
def unmountPlayer (s : PlayerState) : PlayerState :=
  { s with ctxOpen := false, live := [] }

/-- `setMuted` toggle: the `muted` state the guard of `playBeatAudio`
consults. -/
def toggleMute (s : PlayerState) : PlayerState :=
  { s with muted := !s.muted }

/-- A sounding source reaches the end of its buffer and stops by itself
(the browser's own playback completion; the ref keeps pointing at it). -/
def clipEnded (s : PlayerState) : PlayerState :=
  { s with live := match s.current with
      | some id => s.live.erase id
      | none => s.live }

/-- `playBeatAudio` (`ScrollyStory.tsx` lines 33-45): bail out when the
context is missing, muted is set, or the beat has no audio buffer; otherwise
stop the current source (if any), then create, connect and start a fresh
source and remember it in `currentSourceRef`. -/
def playBeatAudio (s : PlayerState) (beat : StoryBeat) : PlayerState :=
  if !s.ctxOpen || s.muted || beat.audioBuffer.isNone then s
  else
    let live1 := match s.current with
      | some id => s.live.erase id
      | none => s.live
    { s with live := live1 ++ [s.nextId]
           , current := some s.nextId
           , started := s.started ++ [s.nextId]
           , nextId := s.nextId + 1 }

/-- `handleScroll` (`ScrollyStory.tsx` lines 47-61): store the raw progress
ratio, compute the candidate index, and when it differs from
`activeBeatIndex` and is below the beat count, set the index and call
`playBeatAudio` on that beat. -/
def handleScroll (beats : List StoryBeat) (m : ScrollMetrics)
    (s : PlayerState) : PlayerState :=
  let s1 := { s with scrollProgress := m.scrollTop / (m.scrollHeight - m.clientHeight) }
  let newIndex := candidateIndex m
  if newIndex ≠ (s1.activeBeatIndex : Int) ∧ newIndex < (beats.length : Int) then
    let s2 := { s1 with activeBeatIndex := newIndex.toNat }
    match beats.get? newIndex.toNat with
    | some b => playBeatAudio s2 b
    | none => s2
  else s1

/-- Player states reachable through the component's event handlers, for a
fixed story.  Scroll events carry the browser guarantees `scrollTop ≥ 0`
and `window.innerHeight > 0`. -/
inductive PReachable (beats : List StoryBeat) : PlayerState → Prop where
  | init : PReachable beats initPlayer
  | mount {s : PlayerState} :
      PReachable beats s → PReachable beats (mountPlayer s)
  | scroll {s : PlayerState} (m : ScrollMetrics) :
      PReachable beats s → 0 ≤ m.scrollTop → 0 < m.windowHeight →
      PReachable beats (handleScroll beats m s)
  | toggle {s : PlayerState} :
      PReachable beats s → PReachable beats (toggleMute s)
  | ended {s : PlayerState} :
      PReachable beats s → PReachable beats (clipEnded s)
  | unmount {s : PlayerState} :
      PReachable beats s → PReachable beats (unmountPlayer s)

/-- The single-sounding-clip invariant: either nothing is sounding, or the
one sounding source is exactly the one `currentSourceRef` points at. -/
def soundingInv (s : PlayerState) : Prop :=
  s.live = [] ∨ ∃ id, s.current = some id ∧ s.live = [id]

/-! ## Concrete fixtures used by the claim theorems -/

def romePoint : LocationPoint := { name := "Rome", lat := 41, lng := 12 }

def venicePoint : LocationPoint := { name := "Venice", lat := 45, lng := 12 }

def veniceRawBeat : RawBeat :=
  { index := 0, text := "gliding past palazzi", locationName := "venice" }

def sampleMedia (i : String) : MediaItem :=
  { id := i, url := "u" ++ i, mimeType := "image/jpeg", timestamp := "t" }

def media4 : List MediaItem :=
  [sampleMedia "1", sampleMedia "2", sampleMedia "3", sampleMedia "4"]

def rawBeatA : RawBeat := { index := 0, text := "dawn over the forum", locationName := "rome" }

def rawBeatB : RawBeat := { index := 1, text := "water and glass", locationName := "venice" }

/-- A collaborator response with only two beats for a four-item media set. -/
def respTwoBeats : GenResponse :=
  { title := some "Voyage", beats := some [rawBeatA, rawBeatB] }

def fourRawBeats : List RawBeat :=
  [ { index := 0, text := "t0", locationName := "rome" }
  , { index := 1, text := "t1", locationName := "venice" }
  , { index := 2, text := "t2", locationName := "rome" }
  , { index := 3, text := "t3", locationName := "venice" } ]

/-- A collaborator response that honours the requested four-beat count. -/
def respFourBeats : GenResponse :=
  { title := some "Voyage", beats := some fourRawBeats }

/-- A collaborator response whose beat indices are swapped. -/
def respSwapped : GenResponse :=
  { title := none
  , beats := some
      [ { index := 1, text := "water and glass", locationName := "venice" }
      , { index := 0, text := "dawn over the forum", locationName := "rome" } ] }

/-- A collaborator response lacking the `beats` field entirely. -/
def respNoBeats : GenResponse := { title := some "T", beats := none }

/-- A media item with a base64 payload but a non-image MIME type. -/
def mediaVideoB64 : MediaItem :=
  { id := "m1", url := "u", mimeType := "video/mp4", timestamp := "t"
  , base64 := some "abc", source := some "upload" }

/-! ## C1 — deterministic location resolution -/

/-- C1: for every collaborator-returned raw beat and every itinerary, the
resolved location is the first itinerary point whose name case-insensitively
contains the beat's `locationName` as a substring; otherwise, for a
non-empty itinerary, the point at position `index mod length`; otherwise
unset.  In particular `"venice"` against `[Rome, Venice]` resolves to the
Venice point. -/
theorem resolveLocation_first_match_else_cycle
    (itinerary : List LocationPoint) (b : RawBeat) :
    (resolveLocation itinerary b =
      match itinerary.find? (fun l => locationNameMatches b l), itinerary with
      | some l, _ => some l
      | none, [] => none
      | none, x :: xs => some ((x :: xs).getD (b.index % (x :: xs).length) x)) ∧
    resolveLocation [romePoint, venicePoint] veniceRawBeat = some venicePoint := by
  refine ⟨?_, rfl⟩
  cases hf : itinerary.find? (fun l => locationNameMatches b l) with
  | some l => simp [resolveLocation, hf]
  | none =>
    cases itinerary with
    | nil => simp [resolveLocation, hf]
    | cons x xs =>
      simp only [resolveLocation, hf]
      have hlt : b.index % (x :: xs).length < (x :: xs).length :=
        Nat.mod_lt _ (by simp)
      have hne : (x :: xs).length ≠ 0 := by simp
      rw [if_neg hne]
      obtain ⟨v, hv⟩ : ∃ v, (x :: xs).get? (b.index % (x :: xs).length) = some v := by
        rw [List.get?_eq_getElem?]
        exact ⟨_, List.getElem?_eq_getElem hlt⟩
      have hgd : (x :: xs).getD (b.index % (x :: xs).length) x =
          ((x :: xs).get? (b.index % (x :: xs).length)).getD x := rfl
      rw [hv, hgd, hv]
      rfl

/-! ## C7 — beat count -/

/-- C7 counterexample: with four media items, assembly on a two-beat
collaborator response yields a story with 2 beats, not
`max 4 (min mediaCount 10) = 4`; the code never enforces the count it
requests in the prompt. -/
theorem assembly_beat_count_cex :
    media4.length = 4 ∧
    (assembleStory1 "T" [romePoint, venicePoint] respTwoBeats).beats.length = 2 ∧
    requestedBeatCount media4 = 4 ∧
    (2 : Nat) ≠ 4 :=
  ⟨rfl, rfl, rfl, by decide⟩

/-- C7 amended: assembly embeds `max 4 (min mediaCount 10)` as the exact
requested beat count in the prompt, and the produced story has exactly as
many beats as the collaborator returned; hence when the collaborator honours
the request, the story's beat count is `max 4 (min mediaCount 10)` — 4 for
4 media items. -/
theorem assembly_beat_count_follows_response (media : List MediaItem)
    (t : String) (itin : List LocationPoint) (r : GenResponse)
    (bs : List RawBeat) (h : r.beats = some bs) :
    requestedBeatCount media = max 4 (min media.length 10) ∧
    (assembleStory1 t itin r).beats.length = bs.length ∧
    (bs.length = requestedBeatCount media →
      (assembleStory1 t itin r).beats.length = max 4 (min media.length 10)) ∧
    (media.length = 4 → requestedBeatCount media = 4) := by
  have hlen : (assembleStory1 t itin r).beats.length = bs.length := by
    simp [assembleStory1, h]
  refine ⟨rfl, hlen, ?_, ?_⟩
  · intro hbs
    rw [hlen, hbs]; rfl
  · intro h4
    simp [requestedBeatCount, h4]

/-- C7 witness: concrete instantiation at a compliant four-beat response. -/
theorem assembly_beat_count_follows_response_witness :
    requestedBeatCount media4 = max 4 (min media4.length 10) ∧
    (assembleStory1 "T" [romePoint] respFourBeats).beats.length = fourRawBeats.length ∧
    (fourRawBeats.length = requestedBeatCount media4 →
      (assembleStory1 "T" [romePoint] respFourBeats).beats.length =
        max 4 (min media4.length 10)) ∧
    (media4.length = 4 → requestedBeatCount media4 = 4) :=
  assembly_beat_count_follows_response media4 "T" [romePoint] respFourBeats
    fourRawBeats rfl

/-! ## C8 — beat index contiguity -/

/-- C8 counterexample: assembly copies the collaborator's indices verbatim,
so a response with indices `[1, 0]` yields a story whose beat indices are
`[1, 0]` — neither contiguous from 0 nor ascending. -/
theorem assembly_indices_cex :
    (assembleStory2 "T" [] respSwapped).map
      (fun st => st.beats.map (fun bt => bt.index)) = some [1, 0] ∧
    ([1, 0] : List Nat) ≠ List.range 2 :=
  ⟨rfl, by decide⟩

/-- C8 amended: assembly preserves the collaborator's beat order and indices
verbatim (the story's k-th beat carries the k-th raw beat's index), so the
story's indices are contiguous from 0 and ascending exactly when the
collaborator returned them that way. -/
theorem assembly_preserves_response_indices (t : String)
    (itin : List LocationPoint) (r : GenResponse) (bs : List RawBeat)
    (h : r.beats = some bs) :
    ∃ st, assembleStory2 t itin r = some st ∧
      st.beats.map (fun bt => bt.index) = bs.map (fun rb => rb.index) ∧
      (bs.map (fun rb => rb.index) = List.range bs.length →
        st.beats.map (fun bt => bt.index) = List.range st.beats.length) := by
  refine ⟨{ title := jsOrString r.title t, beats := bs.map (rawToBeat itin) }, ?_, ?_, ?_⟩
  · simp [assembleStory2, h]
  · simp [rawToBeat, List.map_map, Function.comp]
  · intro hcontig
    simp only [List.map_map]
    have hidx : (bs.map (rawToBeat itin)).map (fun bt => bt.index) =
        bs.map (fun rb => rb.index) := by
      simp [rawToBeat, List.map_map, Function.comp]
    simp only [List.map_map] at hidx
    rw [hidx, List.length_map, hcontig]

/-- C8 witness: concrete instantiation at a contiguous four-beat response. -/
theorem assembly_preserves_response_indices_witness :
    ∃ st, assembleStory2 "T" [romePoint] respFourBeats = some st ∧
      st.beats.map (fun bt => bt.index) = fourRawBeats.map (fun rb => rb.index) ∧
      (fourRawBeats.map (fun rb => rb.index) = List.range fourRawBeats.length →
        st.beats.map (fun bt => bt.index) = List.range st.beats.length) :=
  assembly_preserves_response_indices "T" [romePoint] respFourBeats fourRawBeats rfl

/-! ## C10 — the two copies of `analyzeTripAndGenerateStory` -/

/-- C10 counterexample: the two copies are NOT extensionally equal.  On a
response lacking the `beats` field the first copy returns a story with an
empty beat list while the second fails; and for a media item with a base64
payload and a non-image MIME type the two copies build different request
parts. -/
theorem analyze_copies_disagree_cex :
    assembleStory1 "X" [] respNoBeats = { title := "T", beats := [] } ∧
    assembleStory2 "X" [] respNoBeats = none ∧
    mediaPart1 mediaVideoB64 = PromptPart.text "[Fragment: u - upload source]" ∧
    mediaPart2 mediaVideoB64 = PromptPart.inlineData "abc" "video/mp4" ∧
    mediaPart1 mediaVideoB64 ≠ mediaPart2 mediaVideoB64 :=
  ⟨rfl, rfl, rfl, rfl, by decide⟩

/-- C10 amended: the two copies agree exactly on the responses that carry a
`beats` field — there they produce the identical `RecallStory` (same title
fallback, same beat fields); when the field is missing the first yields an
empty-beats story and the second fails. -/
theorem analyze_copies_agree_when_beats_present (t : String)
    (itin : List LocationPoint) (r : GenResponse) (bs : List RawBeat)
    (h : r.beats = some bs) :
    assembleStory2 t itin r = some (assembleStory1 t itin r) := by
  simp [assembleStory2, assembleStory1, h]

/-- C10 witness: concrete instantiation. -/
theorem analyze_copies_agree_when_beats_present_witness :
    assembleStory2 "X" [romePoint, venicePoint] respTwoBeats =
      some (assembleStory1 "X" [romePoint, venicePoint] respTwoBeats) :=
  analyze_copies_agree_when_beats_present "X" [romePoint, venicePoint]
    respTwoBeats [rawBeatA, rawBeatB] rfl

/-! ## C2 — abort of the mastering loop on synthesis failure -/

/-- When beat `i + k` is the first failing synthesis call (all earlier calls
from `i` succeed), the mastering loop invokes the synthesizer exactly on
`i, i+1, …, i+k` and returns the failure. -/
lemma masterBeats_fail_trace (synth : Nat → Except Unit AudioClip)
    (l : List StoryBeat) :
    ∀ i k, k < l.length →
      (∀ j, j < k → (synth (i + j)).isOk = true) →
      synth (i + k) = Except.error () →
      (masterBeats synth i l).1 = List.range' i (k + 1) ∧
      (masterBeats synth i l).2 = Except.error () := by
  induction l with
  | nil => intro i k hk; simp at hk
  | cons b rest ih =>
    intro i k hk hok hfail
    cases k with
    | zero =>
      have h0 : synth i = Except.error () := by simpa using hfail
      simp [masterBeats, h0, List.range'_succ]
    | succ k2 =>
      have h0 : (synth i).isOk = true := by simpa using hok 0 (Nat.succ_pos k2)
      obtain ⟨a, ha⟩ : ∃ a, synth i = Except.ok a := by
        cases hsi : synth i with
        | error e => rw [hsi] at h0; simp [Except.isOk, Except.toBool] at h0
        | ok a => exact ⟨a, rfl⟩
      have hk2 : k2 < rest.length := by simpa using hk
      have hok2 : ∀ j, j < k2 → (synth (i + 1 + j)).isOk = true := by
        intro j hj
        have h := hok (j + 1) (by omega)
        have harith : i + (j + 1) = i + 1 + j := by omega
        rwa [harith] at h
      have hfail2 : synth (i + 1 + k2) = Except.error () := by
        have harith : i + (k2 + 1) = i + 1 + k2 := by omega
        rwa [harith] at hfail
      obtain ⟨htr, herr⟩ := ih (i + 1) k2 hk2 hok2 hfail2
      constructor
      · simp only [masterBeats, ha, htr]
        simp [List.range'_succ]
      · simp only [masterBeats, ha, herr]
        rfl

/-- C2: if speech synthesis (or decoding) fails on beat `k` of the generated
story (every earlier beat having succeeded), `handleGenerate` aborts: the
synthesizer is called exactly on beats `0..k` (none after the failure), the
stored story is untouched (no `RecallStory` is produced), and the app
returns to the `IMPORTING` screen. -/
theorem handleGenerate_synth_failure_aborts (s : HostState) (st : RecallStory)
    (synth : Nat → Except Unit AudioClip) (k : Nat)
    (hk : k < st.beats.length)
    (hok : ∀ j, j < k → (synth j).isOk = true)
    (hfail : synth k = Except.error ()) :
    (handleGenerate (Except.ok st) synth s).appState = AppState.IMPORTING ∧
    (handleGenerate (Except.ok st) synth s).story = s.story ∧
    (masterBeats synth 0 st.beats).1 = List.range (k + 1) := by
  have h := masterBeats_fail_trace synth st.beats 0 k hk
    (by intro j hj; simpa using hok j hj) (by simpa using hfail)
  refine ⟨?_, ?_, ?_⟩
  · simp [handleGenerate, h.2]
  · simp [handleGenerate, h.2]
  · rw [h.1, List.range_eq_range']

def beatT0 : StoryBeat := { index := 0, text := "a" }

def beatT1 : StoryBeat := { index := 1, text := "b" }

def storyTwoBeats : RecallStory := { title := "T", beats := [beatT0, beatT1] }

/-- Synthesis outcomes: beat 0 succeeds, every later call fails. -/
def synthFailAt1 : Nat → Except Unit AudioClip :=
  fun j => if j = 0 then Except.ok 5 else Except.error ()

def preGen : HostState := { appState := AppState.DESIGNING, story := none }

/-- C2 witness: concrete two-beat story whose second beat fails. -/
theorem handleGenerate_synth_failure_aborts_witness :
    (handleGenerate (Except.ok storyTwoBeats) synthFailAt1 preGen).appState =
      AppState.IMPORTING ∧
    (handleGenerate (Except.ok storyTwoBeats) synthFailAt1 preGen).story =
      preGen.story ∧
    (masterBeats synthFailAt1 0 storyTwoBeats.beats).1 = List.range 2 :=
  handleGenerate_synth_failure_aborts preGen storyTwoBeats synthFailAt1 1
    (by decide)
    (by intro j hj; have hj0 : j = 0 := by omega
        subst hj0; rfl)
    rfl

/-! ## C9 — loading state on the local-file import path -/

/-- After the callback that makes `processedCount` reach the batch size, the
loading flag is cleared. -/
lemma runCallbacks_clears (total : Nat) :
    ∀ j s, 0 < j → s.processedCount + j = total →
      (runCallbacks total j s).isProcessing = false := by
  intro j
  induction j with
  | zero => intro s hpos _; omega
  | succ j2 ih =>
    intro s _ htot
    cases Nat.eq_zero_or_pos j2 with
    | inl hj0 =>
      subst hj0
      have hhit : s.processedCount + 1 = total := by omega
      simp [runCallbacks, readerOnLoadEnd, hhit]
    | inr hjpos =>
      have hmiss : ¬(s.processedCount + 1 = total) := by omega
      simp only [runCallbacks]
      apply ih
      · exact hjpos
      · simp [readerOnLoadEnd, hmiss]
        omega

/-- C9: the claim fails on the code.  `processFiles` run on an EMPTY
selected-file list sets the loading flag and registers no reader, so no
callback ever clears it: the UI is stuck loading forever.  For every
non-empty list the flag is cleared once all readers have fired. -/
theorem processFiles_empty_never_clears (s : ImportState) :
    (processFiles 0 s).isProcessing = true ∧
    ∀ n, (processFiles (n + 1) s).isProcessing = false := by
  refine ⟨rfl, ?_⟩
  intro n
  apply runCallbacks_clears
  · omega
  · simp [processFilesStart]

/-! ## C3 — at most one sounding clip -/

/-- Under the invariant, stopping the current source empties `live`. -/
lemma erase_current_empty {s : PlayerState} (h : soundingInv s) :
    (match s.current with
     | some id => s.live.erase id
     | none => s.live) = [] := by
  rcases h with h0 | ⟨id, hid, h1⟩
  · cases s.current <;> simp [h0]
  · rw [hid, h1]
    simp

/-- `playBeatAudio` preserves the invariant; moreover it either does
nothing, or afterwards the only sounding source is the freshly started
one (the previous one having been stopped first). -/
lemma playBeatAudio_sounding {s : PlayerState} (h : soundingInv s)
    (b : StoryBeat) :
    soundingInv (playBeatAudio s b) ∧
    (playBeatAudio s b = s ∨ (playBeatAudio s b).live = [s.nextId]) := by
  by_cases hg : (!s.ctxOpen || s.muted || b.audioBuffer.isNone) = true
  · unfold playBeatAudio
    rw [if_pos hg]
    exact ⟨h, Or.inl rfl⟩
  · unfold playBeatAudio
    rw [if_neg hg]
    have hstop := erase_current_empty h
    constructor
    · right
      exact ⟨s.nextId, rfl, by simp [hstop]⟩
    · right
      simp [hstop]

/-- `handleScroll` preserves the invariant. -/
lemma handleScroll_sounding {beats : List StoryBeat} {m : ScrollMetrics}
    {s : PlayerState} (h : soundingInv s) :
    soundingInv (handleScroll beats m s) := by
  unfold handleScroll
  dsimp only
  split
  · cases hg : beats.get? (candidateIndex m).toNat with
    | some b => exact (playBeatAudio_sounding (by exact h) b).1
    | none => exact h
  · exact h

/-- Every reachable player state satisfies the invariant. -/
lemma soundingInv_reachable {beats : List StoryBeat} {s : PlayerState}
    (h : PReachable beats s) : soundingInv s := by
  induction h with
  | init => exact Or.inl rfl
  | mount _ ih => exact ih
  | scroll m _ _ _ ih => exact handleScroll_sounding ih
  | toggle _ ih => exact ih
  | ended _ ih =>
    left
    exact erase_current_empty ih
  | unmount _ ih => exact Or.inl rfl

/-- C3: in every reachable player state at most one clip is sounding, and
whenever `playBeatAudio` actually starts a new source, the previously
sounding one has been stopped first: afterwards the new source is the only
live one. -/
theorem player_at_most_one_sounding (beats : List StoryBeat)
    (s : PlayerState) (h : PReachable beats s) :
    s.live.length ≤ 1 ∧
    ∀ b : StoryBeat, playBeatAudio s b = s ∨
      (playBeatAudio s b).live = [s.nextId] := by
  have hinv := soundingInv_reachable h
  constructor
  · rcases hinv with h0 | ⟨id, _, h1⟩
    · simp [h0]
    · simp [h1]
  · intro b
    exact (playBeatAudio_sounding hinv b).2

/-- C3 witness: the theorem applied at the initial state. -/
theorem player_at_most_one_sounding_witness :
    initPlayer.live.length ≤ 1 ∧
    ∀ b : StoryBeat, playBeatAudio initPlayer b = initPlayer ∨
      (playBeatAudio initPlayer b).live = [initPlayer.nextId] :=
  player_at_most_one_sounding [] initPlayer PReachable.init

/-! ## C4 — behaviour on mount -/

def beatWithAudio : StoryBeat :=
  { index := 0, text := "opening", audioBuffer := some 1 }

/-- C4 counterexample: mounting only opens the audio context.  No source is
started (`started` and `live` stay empty, no id is consumed) even though the
player is unmuted and beat 0 of the story carries audio — beat 0's playback
is NOT triggered on mount. -/
theorem mount_no_initial_playback_cex :
    (mountPlayer initPlayer).ctxOpen = true ∧
    (mountPlayer initPlayer).started = [] ∧
    (mountPlayer initPlayer).live = [] ∧
    (mountPlayer initPlayer).nextId = 0 ∧
    initPlayer.muted = false ∧
    beatWithAudio.audioBuffer ≠ none :=
  ⟨rfl, rfl, rfl, rfl, rfl, by decide⟩

/-- C4 amended: on mount the audio output context is opened and nothing else
happens — no audio start is triggered; audio first plays on a scroll-driven
index transition. -/
theorem mount_opens_context_only (s : PlayerState) :
    (mountPlayer s).ctxOpen = true ∧
    (mountPlayer s).started = s.started ∧
    (mountPlayer s).live = s.live ∧
    (mountPlayer s).current = s.current ∧
    (mountPlayer s).activeBeatIndex = s.activeBeatIndex ∧
    (mountPlayer s).nextId = s.nextId :=
  ⟨rfl, rfl, rfl, rfl, rfl, rfl⟩

/-! ## C5 — index transitions -/

def beatNoAudio : StoryBeat :=
  { index := 1, text := "silent", audioBuffer := none }

def beatWithAudio1 : StoryBeat :=
  { index := 1, text := "lagoon", audioBuffer := some 2 }

/-- A two-beat story whose second beat has an empty audio slot. -/
def beatsAudioThenSilent : List StoryBeat := [beatWithAudio, beatNoAudio]

/-- A two-beat story with audio on both beats. -/
def beatsBothAudio : List StoryBeat := [beatWithAudio, beatWithAudio1]

/-- A player mid-session: context open, unmuted, beat 0 active with its
source (id 0) sounding. -/
def playingState : PlayerState :=
  { muted := false, activeBeatIndex := 0, scrollProgress := 0, ctxOpen := true
  , current := some 0, live := [0], started := [0], nextId := 1 }

/-- Scroll metrics one viewport height down. -/
def oneViewportDown : ScrollMetrics :=
  { scrollTop := 100, scrollHeight := 300, clientHeight := 100, windowHeight := 100 }

/-- C5 counterexample: a scroll-driven transition to beat 1 whose audio slot
is empty sets `activeBeatIndex` to 1 but does NOT stop the sounding clip of
beat 0 — the stop lives behind `playBeatAudio`'s guard, so in the no-op
cases nothing is hard-stopped and the old clip keeps sounding. -/
theorem scroll_no_stop_on_noop_cex :
    (handleScroll beatsAudioThenSilent oneViewportDown playingState).activeBeatIndex = 1 ∧
    (handleScroll beatsAudioThenSilent oneViewportDown playingState).live = [0] ∧
    (handleScroll beatsAudioThenSilent oneViewportDown playingState).live ≠ [] := by
  have hc : candidateIndex oneViewportDown = 1 := by
    unfold candidateIndex jsRound
    norm_num [oneViewportDown]
  refine ⟨?_, ?_, ?_⟩ <;>
    simp [handleScroll, hc, playingState, playBeatAudio, beatsAudioThenSilent, beatNoAudio]

/-- C5 amended: on every scroll-driven index transition (candidate index
differs from the active one and is below the beat count) the active index is
set to the candidate; the previously sounding clip is stopped and the new
beat's audio started ONLY when the context is open, audio is unmuted and the
new beat's audio slot is non-empty; in the no-op cases (muted or empty
slot or no context) nothing is stopped or started and any previously
sounding clip keeps sounding. -/
theorem scroll_transition_behavior (beats : List StoryBeat)
    (m : ScrollMetrics) (s : PlayerState) (b : StoryBeat)
    (hne : candidateIndex m ≠ (s.activeBeatIndex : Int))
    (hlt : candidateIndex m < (beats.length : Int))
    (hb : beats.get? (candidateIndex m).toNat = some b) :
    (handleScroll beats m s).activeBeatIndex = (candidateIndex m).toNat ∧
    (s.ctxOpen = true → s.muted = false → b.audioBuffer ≠ none →
      (handleScroll beats m s).live =
        (match s.current with
         | some id => s.live.erase id
         | none => s.live) ++ [s.nextId] ∧
      (handleScroll beats m s).current = some s.nextId ∧
      (handleScroll beats m s).started = s.started ++ [s.nextId]) ∧
    ((!s.ctxOpen || s.muted || b.audioBuffer.isNone) = true →
      (handleScroll beats m s).live = s.live ∧
      (handleScroll beats m s).current = s.current ∧
      (handleScroll beats m s).started = s.started) := by
  unfold handleScroll
  dsimp only
  rw [if_pos ⟨hne, hlt⟩, hb]
  dsimp only
  refine ⟨?_, ?_, ?_⟩
  · unfold playBeatAudio
    split <;> rfl
  · intro hctx hmut hbuf
    have hg : (!s.ctxOpen || s.muted || b.audioBuffer.isNone) = false := by
      cases hab : b.audioBuffer with
      | none => exact absurd hab hbuf
      | some a => simp [hctx, hmut, hab]
    unfold playBeatAudio
    rw [show (!s.ctxOpen || s.muted || b.audioBuffer.isNone) = false from hg]
    simp
  · intro hg
    unfold playBeatAudio
    rw [if_pos hg]
    exact ⟨rfl, rfl, rfl⟩

/-- C5 witness: the theorem applied at a concrete transition to a beat whose
audio slot is filled — the old source is stopped and the new one started. -/
theorem scroll_transition_behavior_witness :
    (handleScroll beatsBothAudio oneViewportDown playingState).activeBeatIndex =
      (candidateIndex oneViewportDown).toNat ∧
    (playingState.ctxOpen = true → playingState.muted = false →
      beatWithAudio1.audioBuffer ≠ none →
      (handleScroll beatsBothAudio oneViewportDown playingState).live =
        (match playingState.current with
         | some id => playingState.live.erase id
         | none => playingState.live) ++ [playingState.nextId] ∧
      (handleScroll beatsBothAudio oneViewportDown playingState).current =
        some playingState.nextId ∧
      (handleScroll beatsBothAudio oneViewportDown playingState).started =
        playingState.started ++ [playingState.nextId]) ∧
    ((!playingState.ctxOpen || playingState.muted ||
        beatWithAudio1.audioBuffer.isNone) = true →
      (handleScroll beatsBothAudio oneViewportDown playingState).live =
        playingState.live ∧
      (handleScroll beatsBothAudio oneViewportDown playingState).current =
        playingState.current ∧
      (handleScroll beatsBothAudio oneViewportDown playingState).started =
        playingState.started) := by
  have hc : candidateIndex oneViewportDown = 1 := by
    unfold candidateIndex jsRound
    norm_num [oneViewportDown]
  exact scroll_transition_behavior beatsBothAudio oneViewportDown playingState
    beatWithAudio1
    (by rw [hc]; norm_num [playingState])
    (by rw [hc]; norm_num [beatsBothAudio])
    (by rw [hc]; rfl)

/-! ## C6 — scroll progress -/

/-- The clamp the claim asserts. -/
def clamp01 (q : ℚ) : ℚ := max 0 (min 1 q)

/-- Metrics outside the feasible browser range: scrollTop beyond the
maximum scroll offset. -/
def overScrolled : ScrollMetrics :=
  { scrollTop := 30, scrollHeight := 20, clientHeight := 10, windowHeight := 100 }

/-- `playBeatAudio` never touches `scrollProgress`. -/
lemma playBeatAudio_scrollProgress (s : PlayerState) (b : StoryBeat) :
    (playBeatAudio s b).scrollProgress = s.scrollProgress := by
  unfold playBeatAudio
  split <;> rfl

/-- After any scroll event the stored progress is exactly the raw ratio. -/
lemma handleScroll_scrollProgress (beats : List StoryBeat)
    (m : ScrollMetrics) (s : PlayerState) :
    (handleScroll beats m s).scrollProgress =
      m.scrollTop / (m.scrollHeight - m.clientHeight) := by
  unfold handleScroll
  dsimp only
  split
  · cases hg : beats.get? (candidateIndex m).toNat with
    | some b => exact playBeatAudio_scrollProgress _ b
    | none => rfl
  · rfl

/-- C6 counterexample: the code stores the raw ratio without clamping.
With scrollTop = 30, scrollHeight = 20, clientHeight = 10 the stored
progress is 3 whereas the claimed clamped value is 1. -/
theorem scrollProgress_not_clamped_cex :
    (handleScroll [] overScrolled initPlayer).scrollProgress = 3 ∧
    clamp01 (overScrolled.scrollTop /
      (overScrolled.scrollHeight - overScrolled.clientHeight)) = 1 ∧
    (3 : ℚ) ≠ 1 := by
  refine ⟨?_, ?_, by norm_num⟩
  · rw [handleScroll_scrollProgress]
    norm_num [overScrolled]
  · norm_num [clamp01, overScrolled, min_def, max_def]

/-- C6 amended: after every scroll event `scrollProgress` equals the
UNCLAMPED ratio scrollTop/(scrollHeight − clientHeight); it is a pure
deterministic function of exactly the three metrics (independent of the
rest of the player state and of the story); and whenever the metrics lie in
the feasible browser range (0 ≤ scrollTop ≤ scrollHeight − clientHeight,
clientHeight < scrollHeight) the ratio already lies in [0, 1], so it equals
its clamp. -/
theorem scrollProgress_raw_ratio_pure (beats beats2 : List StoryBeat)
    (m : ScrollMetrics) (s s2 : PlayerState)
    (h0 : 0 ≤ m.scrollTop)
    (hle : m.scrollTop ≤ m.scrollHeight - m.clientHeight)
    (hlt : m.clientHeight < m.scrollHeight) :
    (handleScroll beats m s).scrollProgress =
      m.scrollTop / (m.scrollHeight - m.clientHeight) ∧
    (handleScroll beats m s).scrollProgress =
      (handleScroll beats2 m s2).scrollProgress ∧
    clamp01 ((handleScroll beats m s).scrollProgress) =
      (handleScroll beats m s).scrollProgress := by
  refine ⟨handleScroll_scrollProgress beats m s, ?_, ?_⟩
  · rw [handleScroll_scrollProgress, handleScroll_scrollProgress]
  · rw [handleScroll_scrollProgress]
    have hD : 0 < m.scrollHeight - m.clientHeight := by linarith
    have hnn : 0 ≤ m.scrollTop / (m.scrollHeight - m.clientHeight) :=
      div_nonneg h0 (le_of_lt hD)
    have hub : m.scrollTop / (m.scrollHeight - m.clientHeight) ≤ 1 :=
      (div_le_one hD).mpr hle
    unfold clamp01
    rw [min_eq_right hub, max_eq_right hnn]

/-- Feasible metrics: half a viewport scrolled on a two-viewport page. -/
def halfWayDown : ScrollMetrics :=
  { scrollTop := 50, scrollHeight := 200, clientHeight := 100, windowHeight := 100 }

/-- C6 witness: the theorem applied at feasible concrete metrics. -/
theorem scrollProgress_raw_ratio_pure_witness :
    (handleScroll [] halfWayDown initPlayer).scrollProgress =
      halfWayDown.scrollTop / (halfWayDown.scrollHeight - halfWayDown.clientHeight) ∧
    (handleScroll [] halfWayDown initPlayer).scrollProgress =
      (handleScroll beatsBothAudio halfWayDown playingState).scrollProgress ∧
    clamp01 ((handleScroll [] halfWayDown initPlayer).scrollProgress) =
      (handleScroll [] halfWayDown initPlayer).scrollProgress :=
  scrollProgress_raw_ratio_pure [] beatsBothAudio halfWayDown initPlayer playingState
    (by norm_num [halfWayDown])
    (by norm_num [halfWayDown])
    (by norm_num [halfWayDown])

end Reelchemy
